import Mathlib

/-!
# Verification of `scripts/generate_logos.py` (MediSync logo generator)

Shallow embedding of the one-shot asset generator: the script opens a source
logo, normalizes it to RGBA, resamples it at every entry of four static size
catalogs, and writes PNG files, a multi-resolution favicon container, and five
metadata files.  The imaging library (PIL) is external to the repository, so
images are modeled initially: an image is either the opened source, a mode
conversion of an image, or a resize of an image at requested dimensions with a
named resampling filter.  File contents are modeled as the deterministic
encodings of these values (`png`/`ico`) or literal text/structured JSON; two
files are byte-identical exactly when their modeled contents are equal.

The run itself is modeled as the ordered list of (path, content) writes that
`generate_logo_sizes` performs, and `main` as a function from an environment
(filesystem existence predicate, the source image, and an oracle giving the
index of the first failing write, if any) to the exit code and the list of
writes actually performed before control returns.
-/

/-- The resampling filters used by the script (only LANCZOS appears). -/
inductive ResampleFilter where
  | lanczos
deriving DecidableEq, Repr

/-- A raster source image as opened from disk: pixel mode (e.g. "RGBA"),
dimensions, and an abstract pixel-content identifier. -/
structure SourceImage where
  mode : String
  width : Nat
  height : Nat
  pixels : Nat
deriving DecidableEq, Repr

/-- Initial model of the external imaging library's image values: the opened
source, `img.convert(mode)`, or `img.resize((w, h), filter)`. -/
inductive Image where
  | src (s : SourceImage)
  | convert (i : Image) (mode : String)
  | resize (i : Image) (w h : Nat) (filter : ResampleFilter)
deriving DecidableEq, Repr

/-- Pixel width of an image: `resize` yields exactly the requested width,
`convert` keeps dimensions. -/
def Image.width : Image → Nat
  | .src s => s.width
  | .convert i _ => i.width
  | .resize _ w _ _ => w

/-- Pixel height of an image: `resize` yields exactly the requested height,
`convert` keeps dimensions. -/
def Image.height : Image → Nat
  | .src s => s.height
  | .convert i _ => i.height
  | .resize _ _ h _ => h

/-- Pixel mode of an image: `convert` sets it, `resize` preserves it. -/
def Image.mode : Image → String
  | .src s => s.mode
  | .convert _ m => m
  | .resize i _ _ _ => i.mode

/-- One icon entry of the web app manifest. -/
structure ManifestIcon where
  src : String
  sizes : String
  type : String
  purpose : String
deriving DecidableEq, Repr

/-- The web app manifest document (`WEB_MANIFEST_CONTENT` in the script). -/
structure WebManifest where
  name : String
  short_name : String
  description : String
  icons : List ManifestIcon
  start_url : String
  display : String
  theme_color : String
  background_color : String
deriving DecidableEq, Repr

/-- Content of a written file.  `png i` is the PNG encoding of image `i`;
`ico base sizes` is the multi-resolution icon container saved from `base` with
the declared size table `sizes`; `json m` is the serialized manifest; `text s`
is literal text.  Encodings are deterministic, so equal contents mean
byte-identical files. -/
inductive FileContent where
  | png (i : Image)
  | ico (base : Image) (sizes : List (Nat × Nat))
  | json (m : WebManifest)
  | text (s : String)
deriving DecidableEq, Repr

/-- Python `os.path.join` at the script's call sites: every left component is a
nonempty relative path without a trailing slash and every right component is
relative, so the join is plain separator insertion. -/
def joinPath (a b : String) : String := a ++ "/" ++ b

-- Configuration constants of the script.

def SOURCE_LOGO : String := "public/logo.png"

def OUTPUT_DIR : String := "public/icons"

def BACKUP_ORIGINAL_NAME : String := "logo-1024x1024.png"

/-- The main size catalog `SIZES` (a Python dict, insertion-ordered). -/
def SIZES : List (String × Nat) :=
  [("favicon-16x16.png", 16),
   ("favicon-32x32.png", 32),
   ("favicon-48x48.png", 48),
   ("icon-72x72.png", 72),
   ("icon-96x96.png", 96),
   ("icon-128x128.png", 128),
   ("icon-144x144.png", 144),
   ("icon-152x152.png", 152),
   ("icon-192x192.png", 192),
   ("icon-384x384.png", 384),
   ("icon-512x512.png", 512),
   ("ios-icon-60x60.png", 60),
   ("ios-icon-60x60@2x.png", 120),
   ("ios-icon-60x60@3x.png", 180),
   ("ios-icon-76x76.png", 76),
   ("ios-icon-76x76@2x.png", 152),
   ("ios-icon-83.5x83.5@2x.png", 167),
   ("android-icon-36x36.png", 36),
   ("android-icon-48x48.png", 48),
   ("android-icon-72x72.png", 72),
   ("android-icon-96x96.png", 96),
   ("android-icon-144x144.png", 144),
   ("android-icon-192x192.png", 192),
   ("android-icon-512x512.png", 512),
   ("app-store-icon-1024x1024.png", 1024),
   ("logo-64x64.png", 64),
   ("logo-128x128.png", 128),
   ("logo-256x256.png", 256),
   ("logo-512x512.png", 512)]

/-- The iOS icon-set mapping built inside `generate_logo_sizes`. -/
def ios_mappings : List (String × Nat) :=
  [("60.png", 60),
   ("60@2x.png", 120),
   ("76.png", 76),
   ("83.5@2x.png", 167),
   ("1024.png", 1024)]

/-- The Android density-bucket mapping built inside `generate_logo_sizes`. -/
def android_sizes : List (String × Nat) :=
  [("mipmap-mdpi", 36),
   ("mipmap-hdpi", 48),
   ("mipmap-xhdpi", 72),
   ("mipmap-xxhdpi", 96),
   ("mipmap-xxxhdpi", 144),
   ("mipmap-xxxhdpi-512", 512)]

/-- The favicon size list built inside `generate_logo_sizes`. -/
def favicon_sizes : List Nat := [16, 32, 48]

/-- The literal Contents.json document `IOS_ICON_SET_CONTENT`. -/
def IOS_ICON_SET_CONTENT : String :=
  "\x7b\n  \"images\" : [\n    \x7b\n      \"filename\" : \"60.png\",\n      \"idiom\" : \"iphone\",\n      \"scale\" : \"2x\",\n      \"size\" : \"60x60\"\n    \x7d,\n    \x7b\n      \"filename\" : \"60@2x.png\",\n      \"idiom\" : \"iphone\",\n      \"scale\" : \"3x\",\n      \"size\" : \"60x60\"\n    \x7d,\n    \x7b\n      \"filename\" : \"76.png\",\n      \"idiom\" : \"ipad\",\n      \"scale\" : \"2x\",\n      \"size\" : \"76x76\"\n    \x7d,\n    \x7b\n      \"filename\" : \"83.5@2x.png\",\n      \"idiom\" : \"ipad\",\n      \"scale\" : \"2x\",\n      \"size\" : \"83.5x83.5\"\n    \x7d,\n    \x7b\n      \"filename\" : \"1024.png\",\n      \"idiom\" : \"ios-marketing\",\n      \"scale\" : \"1x\",\n      \"size\" : \"1024x1024\"\n    \x7d\n  ],\n  \"info\" : \x7b\n    \"author\" : \"xcode\",\n    \"version\" : 1\n  \x7d\n\x7d"

/-- The literal adaptive-icon XML document `ANDROID_ADAPTIVE_ICON`. -/
def ANDROID_ADAPTIVE_ICON : String :=
  "<?xml version=\"1.0\" encoding=\"utf-8\"?>\n<adaptive-icon xmlns:android=\"http://schemas.android.com/apk/res/android\">\n    <background android:drawable=\"@color/ic_launcher_background\"/>\n    <foreground android:drawable=\"@mipmap/ic_launcher_foreground\"/>\n</adaptive-icon>"

/-- The web app manifest value `WEB_MANIFEST_CONTENT` serialized to
`manifest.json`. -/
def WEB_MANIFEST_CONTENT : WebManifest :=
  ⟨"MediSync",
   "MediSync",
   "AI-Powered Conversational BI & Intelligent Accounting for Healthcare",
   [⟨"/icons/icon-72x72.png", "72x72", "image/png", "any"⟩,
    ⟨"/icons/icon-96x96.png", "96x96", "image/png", "any"⟩,
    ⟨"/icons/icon-128x128.png", "128x128", "image/png", "any"⟩,
    ⟨"/icons/icon-144x144.png", "144x144", "image/png", "any"⟩,
    ⟨"/icons/icon-152x152.png", "152x152", "image/png", "any"⟩,
    ⟨"/icons/icon-192x192.png", "192x192", "image/png", "any"⟩,
    ⟨"/icons/icon-384x384.png", "384x384", "image/png", "any"⟩,
    ⟨"/icons/icon-512x512.png", "512x512", "image/png", "any"⟩],
   "/",
   "standalone",
   "#0056D2",
   "#FFFFFF"⟩

/-- The four `f.write` lines producing `android/values/colors.xml`. -/
def COLORS_XML_LINES : List String :=
  ["<?xml version=\"1.0\" encoding=\"utf-8\"?>\n",
   "<resources>\n",
   "    <color name=\"ic_launcher_background\">#0056D2</color>\n",
   "</resources>\n"]

/-- The eighteen `f.write` lines producing `favicon-snippet.html`. -/
def SNIPPET_LINES : List String :=
  ["<!-- Favicon and app icons -->\n",
   "<link rel=\"icon\" type=\"image/png\" sizes=\"16x16\" href=\"/icons/favicon-16x16.png\">\n",
   "<link rel=\"icon\" type=\"image/png\" sizes=\"32x32\" href=\"/icons/favicon-32x32.png\">\n",
   "<link rel=\"icon\" type=\"image/png\" sizes=\"48x48\" href=\"/icons/favicon-48x48.png\">\n",
   "<link rel=\"apple-touch-icon\" sizes=\"60x60\" href=\"/icons/ios-icon-60x60.png\">\n",
   "<link rel=\"apple-touch-icon\" sizes=\"60x60\" href=\"/icons/ios-icon-60x60@2x.png\">\n",
   "<link rel=\"apple-touch-icon\" sizes=\"76x76\" href=\"/icons/ios-icon-76x76.png\">\n",
   "<link rel=\"apple-touch-icon\" sizes=\"76x76\" href=\"/icons/ios-icon-76x76@2x.png\">\n",
   "<link rel=\"apple-touch-icon\" sizes=\"152x152\" href=\"/icons/ios-icon-152x152.png\">\n",
   "<link rel=\"apple-touch-icon\" sizes=\"167x167\" href=\"/icons/ios-icon-83.5x83.5@2x.png\">\n",
   "<link rel=\"apple-touch-icon\" sizes=\"180x180\" href=\"/icons/ios-icon-60x60@3x.png\">\n",
   "<link rel=\"apple-touch-icon\" sizes=\"192x192\" href=\"/icons/icon-192x192.png\">\n",
   "<link rel=\"icon\" type=\"image/png\" sizes=\"512x512\" href=\"/icons/icon-512x512.png\">\n",
   "<link rel=\"manifest\" href=\"/manifest.json\">\n",
   "<meta name=\"theme-color\" content=\"#0056D2\">\n",
   "<meta name=\"apple-mobile-web-app-capable\" content=\"yes\">\n",
   "<meta name=\"apple-mobile-web-app-status-bar-style\" content=\"default\">\n",
   "<meta name=\"apple-mobile-web-app-title\" content=\"MediSync\">\n"]

/-- Bytes of `favicon-snippet.html`: the concatenation of the write calls. -/
def FAVICON_SNIPPET : String := String.join SNIPPET_LINES

/-- Bytes of `android/values/colors.xml`: the concatenation of the writes. -/
def COLORS_XML : String := String.join COLORS_XML_LINES

/-- The mode-normalization step at the top of `generate_logo_sizes`:
`if img.mode != 'RGBA': img = img.convert('RGBA')`. -/
def normalizeRGBA (img0 : Image) : Image :=
  if img0.mode = "RGBA" then img0 else img0.convert "RGBA"

/-- The main `SIZES` loop: one PNG write per catalog entry. -/
def sizeWrites (img : Image) (output_dir : String) : List (String × FileContent) :=
  SIZES.map fun e =>
    (joinPath output_dir e.1, FileContent.png (img.resize e.2 e.2 .lanczos))

/-- The iOS loop: one PNG write per `ios_mappings` entry, into `ios_dir`. -/
def iosWrites (img : Image) (ios_dir : String) : List (String × FileContent) :=
  ios_mappings.map fun e =>
    (joinPath ios_dir e.1, FileContent.png (img.resize e.2 e.2 .lanczos))

/-- The Android loop: per density bucket, one resize saved twice, as
`ic_launcher.png` and as `ic_launcher_foreground.png`. -/
def androidWrites (img : Image) (output_dir : String) : List (String × FileContent) :=
  (android_sizes.map fun e =>
    let android_dir := joinPath (joinPath output_dir "android") e.1
    let resized := img.resize e.2 e.2 .lanczos
    [(joinPath android_dir "ic_launcher.png", FileContent.png resized),
     (joinPath android_dir "ic_launcher_foreground.png", FileContent.png resized)]).flatten

/-- The favicon step: resize at each favicon size, then save the first resized
image as an ICO container declaring the full size table. -/
def faviconWrites (img : Image) (output_dir : String) : List (String × FileContent) :=
  let favicon_images := favicon_sizes.map fun s => img.resize s s .lanczos
  match favicon_images with
  | [] => []
  | base :: _ =>
      [(joinPath output_dir "favicon.ico",
        FileContent.ico base (favicon_sizes.map fun s => (s, s)))]

/-- The script function `generate_logo_sizes(source, output_dir)`: the ordered list of file writes
performed by a complete run on the opened image `img0`. -/
def generate_logo_sizes (img0 : Image) (output_dir : String) :
    List (String × FileContent) :=
  let img := normalizeRGBA img0
  let ios_dir := joinPath output_dir "ios-iconset"
  sizeWrites img output_dir
    ++ iosWrites img ios_dir
    ++ [(joinPath ios_dir "Contents.json", FileContent.text IOS_ICON_SET_CONTENT)]
    ++ androidWrites img output_dir
    ++ [(joinPath (joinPath (joinPath output_dir "android") "mipmap-anydpi-v26")
          "ic_launcher.xml", FileContent.text ANDROID_ADAPTIVE_ICON)]
    ++ [(joinPath (joinPath (joinPath output_dir "android") "values") "colors.xml",
         FileContent.text COLORS_XML)]
    ++ faviconWrites img output_dir
    ++ [(joinPath (joinPath output_dir "..") "manifest.json",
         FileContent.json WEB_MANIFEST_CONTENT)]
    ++ [(joinPath output_dir "favicon-snippet.html", FileContent.text FAVICON_SNIPPET)]

/-- Environment a run executes in: the project root computed from the script
location, which paths exist, the source image found at the source path, and an
oracle giving the zero-based index of the first write that raises an exception
(if that index is past the end of the run's writes, nothing fails). -/
structure Env where
  project_root : String
  pathExists : String → Bool
  sourceImage : SourceImage
  failAt : Option Nat

/-- The script entry point `main()`: pre-flight existence check (exit 1, no writes, when the source is
missing), then the generation run under a top-level try/except — a failure at
write index `k` performs exactly the first `k` writes and exits 1; otherwise
all writes happen and the exit code is 0.  Returns (exit code, writes
performed). -/
def main_run (env : Env) : Nat × List (String × FileContent) :=
  let source_path := joinPath env.project_root SOURCE_LOGO
  let output_dir := joinPath env.project_root OUTPUT_DIR
  if env.pathExists source_path = false then
    (1, [])
  else
    let ws := generate_logo_sizes (Image.src env.sourceImage) output_dir
    match env.failAt with
    | none => (0, ws)
    | some k => if k < ws.length then (1, ws.take k) else (0, ws)

/-- A filesystem as a map from path to content; `applyWrites` performs a write
list in order, each write overwriting the stored content at its path. -/
def applyWrites (fs : String → Option FileContent)
    (ws : List (String × FileContent)) : String → Option FileContent :=
  ws.foldl (fun f w => fun p => if p = w.1 then some w.2 else f p) fs

/-- The content stored at path `p` after performing the writes `ws` on an empty
filesystem: the last write to `p` wins (later writes overwrite earlier ones). -/
def lookupWrite (ws : List (String × FileContent)) (p : String) :
    Option FileContent :=
  applyWrites (fun _ => none) ws p

/-- The paths of every write a complete run performs, in write order. -/
def writePaths (d : String) : List String :=
  SIZES.map (fun e => joinPath d e.1)
    ++ ios_mappings.map (fun e => joinPath (joinPath d "ios-iconset") e.1)
    ++ [joinPath (joinPath d "ios-iconset") "Contents.json"]
    ++ (android_sizes.map (fun e =>
        [joinPath (joinPath (joinPath d "android") e.1) "ic_launcher.png",
         joinPath (joinPath (joinPath d "android") e.1) "ic_launcher_foreground.png"])).flatten
    ++ [joinPath (joinPath (joinPath d "android") "mipmap-anydpi-v26") "ic_launcher.xml"]
    ++ [joinPath (joinPath (joinPath d "android") "values") "colors.xml"]
    ++ [joinPath d "favicon.ico"]
    ++ [joinPath (joinPath d "..") "manifest.json"]
    ++ [joinPath d "favicon-snippet.html"]

/-- The characters before the first double quote. -/
def takeUntilQuote : List Char → List Char
  | [] => []
  | c :: rest => if c = '"' then [] else c :: takeUntilQuote rest

/-- The suffix of `l` following the first occurrence of `pat`, if any. -/
def dropAfter (pat : List Char) : List Char → Option (List Char)
  | [] => none
  | c :: rest =>
      if pat.isPrefixOf (c :: rest) then some ((c :: rest).drop pat.length)
      else dropAfter pat rest

/-- The href value of one snippet line, when the line carries one. -/
def hrefOfLine (l : String) : Option String :=
  match dropAfter "href=\"".data l.data with
  | none => none
  | some t => some ⟨takeUntilQuote t⟩

/-- Every `href` target referenced by the favicon HTML snippet, in order. -/
def snippetHrefs : List String := SNIPPET_LINES.filterMap hrefOfLine

/-- The on-disk path serving an `href` of the snippet: the site root is the
`public/` directory, and `/manifest.json` is the manifest written next to the
icon directory. -/
def hrefToFsPath (h : String) : String :=
  if h = "/manifest.json" then joinPath (joinPath OUTPUT_DIR "..") "manifest.json"
  else "public" ++ h

/-- The web/PWA subset of the main size catalog: the `icon-<n>x<n>.png`
entries. -/
def webIconEntries : List (String × Nat) :=
  SIZES.filter fun e => "icon-".data.isPrefixOf e.1.data

/-- Whether a written file is one of the metadata files (structured text or
JSON) rather than an encoded image. -/
def FileContent.isMetadata : FileContent → Bool
  | .png _ => false
  | .ico _ _ => false
  | .json _ => true
  | .text _ => true

/-- Following the spec's words, not the code: whether a pixel mode names a
format that carries an alpha channel.  Besides "RGBA" the external imaging
library has further alpha-carrying modes — gray+alpha "LA"/"La",
palette+alpha "PA", premultiplied "RGBa" — while the script's check compares
against "RGBA" alone. -/
def modeHasAlpha (m : String) : Bool :=
  m = "RGBA" || m = "LA" || m = "La" || m = "PA" || m = "RGBa"

-- General lemmas about applying and looking up writes.

theorem applyWrites_cons (fs : String → Option FileContent)
    (w : String × FileContent) (ws : List (String × FileContent)) :
    applyWrites fs (w :: ws) =
      applyWrites (fun p => if p = w.1 then some w.2 else fs p) ws := rfl

theorem applyWrites_not_mem (fs : String → Option FileContent)
    (ws : List (String × FileContent)) (p : String)
    (h : p ∉ ws.map Prod.fst) : applyWrites fs ws p = fs p := by
  induction ws generalizing fs with
  | nil => rfl
  | cons w ws ih =>
    simp only [List.map_cons, List.mem_cons, not_or] at h
    rw [applyWrites_cons, ih _ h.2]
    simp [h.1]

theorem applyWrites_indep (fs fs' : String → Option FileContent)
    (ws : List (String × FileContent)) (p : String)
    (h : p ∈ ws.map Prod.fst) :
    applyWrites fs ws p = applyWrites fs' ws p := by
  induction ws generalizing fs fs' with
  | nil => cases h
  | cons w ws ih =>
    rw [applyWrites_cons, applyWrites_cons]
    by_cases hp : p ∈ ws.map Prod.fst
    · exact ih _ _ hp
    · have h1 : p = w.1 := by
        simp only [List.map_cons, List.mem_cons] at h
        tauto
      rw [applyWrites_not_mem _ _ _ hp, applyWrites_not_mem _ _ _ hp]
      simp [h1]

theorem applyWrites_mem (fs : String → Option FileContent)
    (ws : List (String × FileContent)) (p : String) (c : FileContent)
    (hmem : (p, c) ∈ ws) (hnd : (ws.map Prod.fst).Nodup) :
    applyWrites fs ws p = some c := by
  induction ws generalizing fs with
  | nil => cases hmem
  | cons w ws ih =>
    rw [applyWrites_cons]
    simp only [List.map_cons, List.nodup_cons] at hnd
    rcases List.mem_cons.mp hmem with heq | hmem'
    · subst heq
      rw [applyWrites_not_mem _ _ _ hnd.1]
      simp
    · exact ih _ hmem' hnd.2

theorem lookupWrite_mem {ws : List (String × FileContent)} {p : String}
    {c : FileContent} (hmem : (p, c) ∈ ws)
    (hnd : (ws.map Prod.fst).Nodup) : lookupWrite ws p = some c :=
  applyWrites_mem _ _ _ _ hmem hnd

-- The path layout of a run, and its freedom from collisions.

theorem generate_paths (img : Image) (d : String) :
    (generate_logo_sizes img d).map Prod.fst = writePaths d := rfl

set_option maxHeartbeats 1000000 in
theorem writePaths_nodup : (writePaths OUTPUT_DIR).Nodup := by decide

theorem generate_nodup (img : Image) :
    ((generate_logo_sizes img OUTPUT_DIR).map Prod.fst).Nodup := by
  rw [generate_paths]
  exact writePaths_nodup

-- Membership of each kind of write in a run's write list.

theorem mem_generate_of_mem_SIZES (img : Image) (d : String) {e : String × Nat}
    (he : e ∈ SIZES) :
    (joinPath d e.1,
      FileContent.png ((normalizeRGBA img).resize e.2 e.2 .lanczos))
      ∈ generate_logo_sizes img d := by
  unfold generate_logo_sizes
  simp only [List.mem_append]
  exact Or.inl (Or.inl (Or.inl (Or.inl (Or.inl (Or.inl (Or.inl (Or.inl
    (List.mem_map_of_mem _ he))))))))

theorem mem_generate_of_mem_ios (img : Image) (d : String) {e : String × Nat}
    (he : e ∈ ios_mappings) :
    (joinPath (joinPath d "ios-iconset") e.1,
      FileContent.png ((normalizeRGBA img).resize e.2 e.2 .lanczos))
      ∈ generate_logo_sizes img d := by
  unfold generate_logo_sizes
  simp only [List.mem_append]
  exact Or.inl (Or.inl (Or.inl (Or.inl (Or.inl (Or.inl (Or.inl (Or.inr
    (List.mem_map_of_mem _ he))))))))

theorem mem_generate_contents (img : Image) (d : String) :
    (joinPath (joinPath d "ios-iconset") "Contents.json",
      FileContent.text IOS_ICON_SET_CONTENT) ∈ generate_logo_sizes img d := by
  unfold generate_logo_sizes
  simp only [List.mem_append]
  exact Or.inl (Or.inl (Or.inl (Or.inl (Or.inl (Or.inl (Or.inr
    (List.mem_cons_self _ _)))))))

theorem mem_generate_android_launcher (img : Image) (d : String)
    {e : String × Nat} (he : e ∈ android_sizes) :
    (joinPath (joinPath (joinPath d "android") e.1) "ic_launcher.png",
      FileContent.png ((normalizeRGBA img).resize e.2 e.2 .lanczos))
      ∈ generate_logo_sizes img d := by
  unfold generate_logo_sizes
  simp only [List.mem_append]
  refine Or.inl (Or.inl (Or.inl (Or.inl (Or.inl (Or.inr ?_)))))
  unfold androidWrites
  exact List.mem_flatten.mpr ⟨_, List.mem_map_of_mem _ he,
    List.mem_cons_self _ _⟩

theorem mem_generate_android_fg (img : Image) (d : String)
    {e : String × Nat} (he : e ∈ android_sizes) :
    (joinPath (joinPath (joinPath d "android") e.1)
        "ic_launcher_foreground.png",
      FileContent.png ((normalizeRGBA img).resize e.2 e.2 .lanczos))
      ∈ generate_logo_sizes img d := by
  unfold generate_logo_sizes
  simp only [List.mem_append]
  refine Or.inl (Or.inl (Or.inl (Or.inl (Or.inl (Or.inr ?_)))))
  unfold androidWrites
  exact List.mem_flatten.mpr ⟨_, List.mem_map_of_mem _ he,
    List.mem_cons_of_mem _ (List.mem_cons_self _ _)⟩

theorem mem_generate_adaptive (img : Image) (d : String) :
    (joinPath (joinPath (joinPath d "android") "mipmap-anydpi-v26")
        "ic_launcher.xml",
      FileContent.text ANDROID_ADAPTIVE_ICON) ∈ generate_logo_sizes img d := by
  unfold generate_logo_sizes
  simp only [List.mem_append]
  exact Or.inl (Or.inl (Or.inl (Or.inl (Or.inr (List.mem_cons_self _ _)))))

theorem mem_generate_colors (img : Image) (d : String) :
    (joinPath (joinPath (joinPath d "android") "values") "colors.xml",
      FileContent.text COLORS_XML) ∈ generate_logo_sizes img d := by
  unfold generate_logo_sizes
  simp only [List.mem_append]
  exact Or.inl (Or.inl (Or.inl (Or.inr (List.mem_cons_self _ _))))

theorem mem_generate_favicon (img : Image) (d : String) :
    (joinPath d "favicon.ico",
      FileContent.ico ((normalizeRGBA img).resize 16 16 .lanczos)
        [(16, 16), (32, 32), (48, 48)]) ∈ generate_logo_sizes img d := by
  unfold generate_logo_sizes
  simp only [List.mem_append]
  exact Or.inl (Or.inl (Or.inr (List.mem_cons_self _ _)))

theorem mem_generate_manifest (img : Image) (d : String) :
    (joinPath (joinPath d "..") "manifest.json",
      FileContent.json WEB_MANIFEST_CONTENT) ∈ generate_logo_sizes img d := by
  unfold generate_logo_sizes
  simp only [List.mem_append]
  exact Or.inl (Or.inr (List.mem_cons_self _ _))

theorem mem_generate_snippet (img : Image) (d : String) :
    (joinPath d "favicon-snippet.html", FileContent.text FAVICON_SNIPPET)
      ∈ generate_logo_sizes img d := by
  unfold generate_logo_sizes
  simp only [List.mem_append]
  exact Or.inr (List.mem_cons_self _ _)

-- Content stored at each output path after a complete run on `img`.

theorem lookup_SIZES (img : Image) {e : String × Nat} (he : e ∈ SIZES) :
    lookupWrite (generate_logo_sizes img OUTPUT_DIR) (joinPath OUTPUT_DIR e.1)
      = some (FileContent.png ((normalizeRGBA img).resize e.2 e.2 .lanczos)) :=
  lookupWrite_mem (mem_generate_of_mem_SIZES img OUTPUT_DIR he)
    (generate_nodup img)

theorem lookup_ios (img : Image) {e : String × Nat} (he : e ∈ ios_mappings) :
    lookupWrite (generate_logo_sizes img OUTPUT_DIR)
        (joinPath (joinPath OUTPUT_DIR "ios-iconset") e.1)
      = some (FileContent.png ((normalizeRGBA img).resize e.2 e.2 .lanczos)) :=
  lookupWrite_mem (mem_generate_of_mem_ios img OUTPUT_DIR he)
    (generate_nodup img)

theorem lookup_android_launcher (img : Image) {e : String × Nat}
    (he : e ∈ android_sizes) :
    lookupWrite (generate_logo_sizes img OUTPUT_DIR)
        (joinPath (joinPath (joinPath OUTPUT_DIR "android") e.1)
          "ic_launcher.png")
      = some (FileContent.png ((normalizeRGBA img).resize e.2 e.2 .lanczos)) :=
  lookupWrite_mem (mem_generate_android_launcher img OUTPUT_DIR he)
    (generate_nodup img)

theorem lookup_android_fg (img : Image) {e : String × Nat}
    (he : e ∈ android_sizes) :
    lookupWrite (generate_logo_sizes img OUTPUT_DIR)
        (joinPath (joinPath (joinPath OUTPUT_DIR "android") e.1)
          "ic_launcher_foreground.png")
      = some (FileContent.png ((normalizeRGBA img).resize e.2 e.2 .lanczos)) :=
  lookupWrite_mem (mem_generate_android_fg img OUTPUT_DIR he)
    (generate_nodup img)

theorem lookup_favicon (img : Image) :
    lookupWrite (generate_logo_sizes img OUTPUT_DIR)
        (joinPath OUTPUT_DIR "favicon.ico")
      = some (FileContent.ico ((normalizeRGBA img).resize 16 16 .lanczos)
          [(16, 16), (32, 32), (48, 48)]) :=
  lookupWrite_mem (mem_generate_favicon img OUTPUT_DIR) (generate_nodup img)

theorem lookup_manifest (img : Image) :
    lookupWrite (generate_logo_sizes img OUTPUT_DIR)
        (joinPath (joinPath OUTPUT_DIR "..") "manifest.json")
      = some (FileContent.json WEB_MANIFEST_CONTENT) :=
  lookupWrite_mem (mem_generate_manifest img OUTPUT_DIR) (generate_nodup img)

/-- The normalized image always carries the alpha-bearing RGBA mode. -/
theorem normalizeRGBA_mode (img0 : Image) :
    (normalizeRGBA img0).mode = "RGBA" := by
  by_cases h : img0.mode = "RGBA" <;> simp [normalizeRGBA, h, Image.mode]

/-- C1: for every entry (filename, size) of every size catalog — the main
`SIZES` table, the iOS mappings, the Android density mappings, and the favicon
size list — a successful run stores at that entry's output path an image of
exactly size × size pixels (for Android, as `ic_launcher.png`; the favicon
sizes become the frames of the container, each resized to size × size), and no
entry is skipped: the lookup succeeds for every entry. -/
theorem catalog_dimensions (img0 : Image) :
    (∀ e ∈ SIZES, ∃ i,
      lookupWrite (generate_logo_sizes img0 OUTPUT_DIR)
          (joinPath OUTPUT_DIR e.1)
        = some (FileContent.png i) ∧ i.width = e.2 ∧ i.height = e.2) ∧
    (∀ e ∈ ios_mappings, ∃ i,
      lookupWrite (generate_logo_sizes img0 OUTPUT_DIR)
          (joinPath (joinPath OUTPUT_DIR "ios-iconset") e.1)
        = some (FileContent.png i) ∧ i.width = e.2 ∧ i.height = e.2) ∧
    (∀ e ∈ android_sizes, ∃ i,
      lookupWrite (generate_logo_sizes img0 OUTPUT_DIR)
          (joinPath (joinPath (joinPath OUTPUT_DIR "android") e.1)
            "ic_launcher.png")
        = some (FileContent.png i) ∧
      lookupWrite (generate_logo_sizes img0 OUTPUT_DIR)
          (joinPath (joinPath (joinPath OUTPUT_DIR "android") e.1)
            "ic_launcher_foreground.png")
        = some (FileContent.png i) ∧ i.width = e.2 ∧ i.height = e.2) ∧
    (∀ s ∈ favicon_sizes, ∃ b tbl,
      lookupWrite (generate_logo_sizes img0 OUTPUT_DIR)
          (joinPath OUTPUT_DIR "favicon.ico")
        = some (FileContent.ico b tbl) ∧ (s, s) ∈ tbl ∧
      ((normalizeRGBA img0).resize s s .lanczos).width = s ∧
      ((normalizeRGBA img0).resize s s .lanczos).height = s) := by
  refine ⟨?_, ?_, ?_, ?_⟩
  · intro e he
    exact ⟨_, lookup_SIZES img0 he, rfl, rfl⟩
  · intro e he
    exact ⟨_, lookup_ios img0 he, rfl, rfl⟩
  · intro e he
    exact ⟨_, lookup_android_launcher img0 he, lookup_android_fg img0 he,
      rfl, rfl⟩
  · intro s hs
    refine ⟨_, _, lookup_favicon img0, ?_, rfl, rfl⟩
    fin_cases hs <;> simp

/-- Witness for C1 at a concrete 1024×1024 RGB source: the stored
`icon-512x512.png` is 512×512, the stored iOS `60.png` is 60×60, the stored
hdpi launcher is 48×48, and the 16-pixel favicon frame is declared. -/
theorem catalog_dimensions_witness :
    (∃ i, lookupWrite
        (generate_logo_sizes (Image.src ⟨"RGB", 1024, 1024, 0⟩) OUTPUT_DIR)
        (joinPath OUTPUT_DIR "icon-512x512.png")
      = some (FileContent.png i) ∧ i.width = 512 ∧ i.height = 512) ∧
    (∃ i, lookupWrite
        (generate_logo_sizes (Image.src ⟨"RGB", 1024, 1024, 0⟩) OUTPUT_DIR)
        (joinPath (joinPath (joinPath OUTPUT_DIR "android") "mipmap-hdpi")
          "ic_launcher.png")
      = some (FileContent.png i) ∧ i.width = 48) := by
  constructor
  · exact (catalog_dimensions (Image.src ⟨"RGB", 1024, 1024, 0⟩)).1
      ("icon-512x512.png", 512) (by decide)
  · obtain ⟨i, h1, _, h3, _⟩ :=
      (catalog_dimensions (Image.src ⟨"RGB", 1024, 1024, 0⟩)).2.2.1
        ("mipmap-hdpi", 48) (by decide)
    exact ⟨i, h1, h3⟩

/-- C2: the file `favicon.ico` is stored as the icon container whose base frame is the
16-pixel (smallest-size) resized image and whose declared size table is
exactly the three favicon sizes 16, 32, and 48, so the container is built with
exactly three embedded frames as declared by the size table.  The container
format internals are the external imaging library's; the embedding models the
save call by its interface, the base image and declared size list. -/
theorem favicon_bundle (img0 : Image) :
    lookupWrite (generate_logo_sizes img0 OUTPUT_DIR)
        (joinPath OUTPUT_DIR "favicon.ico")
      = some (FileContent.ico ((normalizeRGBA img0).resize 16 16 .lanczos)
          (favicon_sizes.map fun s => (s, s))) ∧
    favicon_sizes = [16, 32, 48] ∧
    (favicon_sizes.map fun s => (s, s)).length = 3 ∧
    ((normalizeRGBA img0).resize 16 16 .lanczos).width = 16 ∧
    ((normalizeRGBA img0).resize 16 16 .lanczos).height = 16 :=
  ⟨lookup_favicon img0, rfl, rfl, rfl, rfl⟩

/-- C3: when the source path does not exist, `main` returns exit code 1 before
performing any write; when the source exists and no step fails, it performs
the whole run and returns exit code 0. -/
theorem preflight_and_success (env : Env) :
    (env.pathExists (joinPath env.project_root SOURCE_LOGO) = false →
      main_run env = (1, [])) ∧
    (env.pathExists (joinPath env.project_root SOURCE_LOGO) = true →
      env.failAt = none →
      main_run env = (0, generate_logo_sizes (Image.src env.sourceImage)
        (joinPath env.project_root OUTPUT_DIR))) := by
  constructor
  · intro h
    unfold main_run
    simp [h]
  · intro h hf
    unfold main_run
    simp [h, hf]

/-- Witness for C3: a missing source exits 1 with no files; an existing source
with no failure exits 0. -/
theorem preflight_and_success_witness :
    main_run ⟨"", fun _ => false, ⟨"RGBA", 1024, 1024, 0⟩, none⟩ = (1, []) ∧
    (main_run ⟨"", fun _ => true, ⟨"RGBA", 1024, 1024, 0⟩, none⟩).1 = 0 := by
  constructor
  · exact (preflight_and_success
      ⟨"", fun _ => false, ⟨"RGBA", 1024, 1024, 0⟩, none⟩).1 rfl
  · rw [(preflight_and_success
      ⟨"", fun _ => true, ⟨"RGBA", 1024, 1024, 0⟩, none⟩).2 rfl rfl]

/-- C4: if generation fails at write index `k` (any exception after generation
started), `main` returns exit code 1 and the files on disk are exactly the
first `k` writes of the run: files written before the failure are kept, and no
later catalog entry is processed. -/
theorem failure_aborts_rest (env : Env) (k : Nat)
    (hex : env.pathExists (joinPath env.project_root SOURCE_LOGO) = true)
    (hf : env.failAt = some k)
    (hk : k < (generate_logo_sizes (Image.src env.sourceImage)
        (joinPath env.project_root OUTPUT_DIR)).length) :
    main_run env = (1, (generate_logo_sizes (Image.src env.sourceImage)
        (joinPath env.project_root OUTPUT_DIR)).take k) := by
  unfold main_run
  simp [hex, hf, hk]

/-- Witness for C4: failing at the fourth write (index 3) leaves exactly the
first three files and exits 1. -/
theorem failure_aborts_rest_witness :
    main_run ⟨"", fun _ => true, ⟨"RGBA", 1024, 1024, 0⟩, some 3⟩
      = (1, (generate_logo_sizes (Image.src ⟨"RGBA", 1024, 1024, 0⟩)
          (joinPath "" OUTPUT_DIR)).take 3) :=
  failure_aborts_rest ⟨"", fun _ => true, ⟨"RGBA", 1024, 1024, 0⟩, some 3⟩ 3
    rfl rfl (by decide)

/-- C6: a run is a pure function of the source image, and re-running over a
filesystem that already holds the outputs overwrites every file with identical
content: applying the same run's writes twice is the same as applying them
once, for every starting filesystem. -/
theorem rerun_idempotent (fs : String → Option FileContent) (img0 : Image)
    (d : String) :
    applyWrites (applyWrites fs (generate_logo_sizes img0 d))
        (generate_logo_sizes img0 d)
      = applyWrites fs (generate_logo_sizes img0 d) := by
  funext p
  by_cases hp : p ∈ (generate_logo_sizes img0 d).map Prod.fst
  · exact applyWrites_indep _ _ _ _ hp
  · rw [applyWrites_not_mem _ _ _ hp]

/-- C10: in every Android density bucket, the file `ic_launcher_foreground.png` holds
content byte-identical to `ic_launcher.png` of the same bucket — both are
saved from the same resized image. -/
theorem android_fg_identical (img0 : Image) :
    ∀ e ∈ android_sizes,
      lookupWrite (generate_logo_sizes img0 OUTPUT_DIR)
          (joinPath (joinPath (joinPath OUTPUT_DIR "android") e.1)
            "ic_launcher_foreground.png")
        = lookupWrite (generate_logo_sizes img0 OUTPUT_DIR)
          (joinPath (joinPath (joinPath OUTPUT_DIR "android") e.1)
            "ic_launcher.png") ∧
      (∃ i, lookupWrite (generate_logo_sizes img0 OUTPUT_DIR)
          (joinPath (joinPath (joinPath OUTPUT_DIR "android") e.1)
            "ic_launcher_foreground.png")
        = some (FileContent.png i)) := by
  intro e he
  rw [lookup_android_fg img0 he, lookup_android_launcher img0 he]
  exact ⟨rfl, _, rfl⟩

/-- Witness for C10 at the mdpi bucket of a concrete source image. -/
theorem android_fg_identical_witness :
    lookupWrite
        (generate_logo_sizes (Image.src ⟨"RGBA", 1024, 1024, 0⟩) OUTPUT_DIR)
        (joinPath (joinPath (joinPath OUTPUT_DIR "android") "mipmap-mdpi")
          "ic_launcher_foreground.png")
      = lookupWrite
        (generate_logo_sizes (Image.src ⟨"RGBA", 1024, 1024, 0⟩) OUTPUT_DIR)
        (joinPath (joinPath (joinPath OUTPUT_DIR "android") "mipmap-mdpi")
          "ic_launcher.png") :=
  (android_fg_identical (Image.src ⟨"RGBA", 1024, 1024, 0⟩)
    ("mipmap-mdpi", 36) (by decide)).1

/-- C5: the emitted web app manifest names the app "MediSync"; its icon list
has exactly 8 entries, one per web/PWA entry of the size catalog; each icon's
`sizes` field is the "NxN" string of its catalog entry's declared square size
and its `src` points at the catalog file; and the stored file for each such
entry has exactly those pixel dimensions. -/
theorem manifest_matches_catalog (img0 : Image) :
    WEB_MANIFEST_CONTENT.name = "MediSync" ∧
    WEB_MANIFEST_CONTENT.icons.length = 8 ∧
    webIconEntries.length = 8 ∧
    lookupWrite (generate_logo_sizes img0 OUTPUT_DIR)
        (joinPath (joinPath OUTPUT_DIR "..") "manifest.json")
      = some (FileContent.json WEB_MANIFEST_CONTENT) ∧
    List.Forall₂ (fun (ic : ManifestIcon) (e : String × Nat) =>
        ic.src = "/icons/" ++ e.1 ∧
        ic.sizes = toString e.2 ++ "x" ++ toString e.2)
      WEB_MANIFEST_CONTENT.icons webIconEntries ∧
    (∀ e ∈ webIconEntries, ∃ i,
      lookupWrite (generate_logo_sizes img0 OUTPUT_DIR)
          (joinPath OUTPUT_DIR e.1)
        = some (FileContent.png i) ∧ i.width = e.2 ∧ i.height = e.2) := by
  refine ⟨rfl, rfl, by decide, lookup_manifest img0, ?_, ?_⟩
  · have hw : webIconEntries =
        [("icon-72x72.png", 72), ("icon-96x96.png", 96),
         ("icon-128x128.png", 128), ("icon-144x144.png", 144),
         ("icon-152x152.png", 152), ("icon-192x192.png", 192),
         ("icon-384x384.png", 384), ("icon-512x512.png", 512)] := by decide
    rw [hw]
    refine .cons ⟨by decide, by decide⟩ (.cons ⟨by decide, by decide⟩
      (.cons ⟨by decide, by decide⟩ (.cons ⟨by decide, by decide⟩
        (.cons ⟨by decide, by decide⟩ (.cons ⟨by decide, by decide⟩
          (.cons ⟨by decide, by decide⟩ (.cons ⟨by decide, by decide⟩
            .nil)))))))
  · intro e he
    have hs : e ∈ SIZES := List.mem_of_mem_filter he
    exact ⟨_, lookup_SIZES img0 hs, rfl, rfl⟩

/-- Witness for C5: the 512-pixel web icon of a concrete source is stored at
512×512. -/
theorem manifest_matches_catalog_witness :
    ∃ i, lookupWrite
        (generate_logo_sizes (Image.src ⟨"RGB", 1024, 1024, 0⟩) OUTPUT_DIR)
        (joinPath OUTPUT_DIR "icon-512x512.png")
      = some (FileContent.png i) ∧ i.width = 512 ∧ i.height = 512 :=
  (manifest_matches_catalog (Image.src ⟨"RGB", 1024, 1024, 0⟩)).2.2.2.2.2
    ("icon-512x512.png", 512) (by decide)

/-- C7: the five metadata files (iOS Contents.json, Android adaptive-icon XML,
Android colors.xml, manifest.json, favicon-snippet.html) receive content
determined entirely by static constants: for any two source images the run
writes them the same bytes, and those writes are exactly the five listed
constants. -/
theorem metadata_static (img1 img2 : Image) (d : String) :
    (generate_logo_sizes img1 d).filter (fun w => w.2.isMetadata)
      = (generate_logo_sizes img2 d).filter (fun w => w.2.isMetadata) ∧
    (generate_logo_sizes img1 d).filter (fun w => w.2.isMetadata)
      = [(joinPath (joinPath d "ios-iconset") "Contents.json",
          FileContent.text IOS_ICON_SET_CONTENT),
         (joinPath (joinPath (joinPath d "android") "mipmap-anydpi-v26")
            "ic_launcher.xml", FileContent.text ANDROID_ADAPTIVE_ICON),
         (joinPath (joinPath (joinPath d "android") "values") "colors.xml",
          FileContent.text COLORS_XML),
         (joinPath (joinPath d "..") "manifest.json",
          FileContent.json WEB_MANIFEST_CONTENT),
         (joinPath d "favicon-snippet.html",
          FileContent.text FAVICON_SNIPPET)] :=
  ⟨rfl, rfl⟩

/-- C8 as amended: the opened image is converted to RGBA exactly when its
pixel mode is not already "RGBA" — an already-RGBA image is used without
conversion, while any other mode is converted even when it carries alpha
(see the counterexample at the gray+alpha mode "LA") — the normalized image
always carries alpha, and every image the run encodes (every PNG and the
favicon container base) is a resize of the normalized, alpha-carrying image
and itself carries alpha. -/
theorem alpha_normalization (img0 : Image) (d : String) :
    (normalizeRGBA img0).mode = "RGBA" ∧
    (img0.mode = "RGBA" → normalizeRGBA img0 = img0) ∧
    (img0.mode ≠ "RGBA" → normalizeRGBA img0 = img0.convert "RGBA") ∧
    (∀ w ∈ generate_logo_sizes img0 d, ∀ i, w.2 = FileContent.png i →
      (∃ s : Nat, i = (normalizeRGBA img0).resize s s .lanczos) ∧
        i.mode = "RGBA") ∧
    (∀ w ∈ generate_logo_sizes img0 d, ∀ b tbl,
      w.2 = FileContent.ico b tbl →
      (∃ s : Nat, b = (normalizeRGBA img0).resize s s .lanczos) ∧
        b.mode = "RGBA") := by
  refine ⟨normalizeRGBA_mode img0, ?_, ?_, ?_, ?_⟩
  · intro h
    simp [normalizeRGBA, h]
  · intro h
    simp [normalizeRGBA, h]
  · intro w hw i hi
    unfold generate_logo_sizes at hw
    simp only [List.mem_append] at hw
    rcases hw with ((((((((h | h) | h) | h) | h) | h) | h) | h) | h)
    · obtain ⟨e, he, rfl⟩ := List.mem_map.mp h
      injection hi with h2
      subst h2
      exact ⟨⟨e.2, rfl⟩, by simpa [Image.mode] using normalizeRGBA_mode img0⟩
    · obtain ⟨e, he, rfl⟩ := List.mem_map.mp h
      injection hi with h2
      subst h2
      exact ⟨⟨e.2, rfl⟩, by simpa [Image.mode] using normalizeRGBA_mode img0⟩
    · obtain rfl := List.mem_singleton.mp h
      simp at hi
    · unfold androidWrites at h
      obtain ⟨l, hl, hw2⟩ := List.mem_flatten.mp h
      obtain ⟨e, he, rfl⟩ := List.mem_map.mp hl
      rcases List.mem_cons.mp hw2 with rfl | hw3
      · injection hi with h2
        subst h2
        exact ⟨⟨e.2, rfl⟩, by simpa [Image.mode] using normalizeRGBA_mode img0⟩
      · obtain rfl := List.mem_singleton.mp hw3
        injection hi with h2
        subst h2
        exact ⟨⟨e.2, rfl⟩, by simpa [Image.mode] using normalizeRGBA_mode img0⟩
    · obtain rfl := List.mem_singleton.mp h
      simp at hi
    · obtain rfl := List.mem_singleton.mp h
      simp at hi
    · simp [faviconWrites, favicon_sizes] at h
      subst h
      simp at hi
    · obtain rfl := List.mem_singleton.mp h
      simp at hi
    · obtain rfl := List.mem_singleton.mp h
      simp at hi
  · intro w hw b tbl hi
    unfold generate_logo_sizes at hw
    simp only [List.mem_append] at hw
    rcases hw with ((((((((h | h) | h) | h) | h) | h) | h) | h) | h)
    · obtain ⟨e, he, rfl⟩ := List.mem_map.mp h
      simp at hi
    · obtain ⟨e, he, rfl⟩ := List.mem_map.mp h
      simp at hi
    · obtain rfl := List.mem_singleton.mp h
      simp at hi
    · unfold androidWrites at h
      obtain ⟨l, hl, hw2⟩ := List.mem_flatten.mp h
      obtain ⟨e, he, rfl⟩ := List.mem_map.mp hl
      rcases List.mem_cons.mp hw2 with rfl | hw3
      · simp at hi
      · obtain rfl := List.mem_singleton.mp hw3
        simp at hi
    · obtain rfl := List.mem_singleton.mp h
      simp at hi
    · obtain rfl := List.mem_singleton.mp h
      simp at hi
    · simp [faviconWrites, favicon_sizes] at h
      subst h
      injection hi with h2 h3
      subst h2
      exact ⟨⟨16, rfl⟩, by simpa [Image.mode] using normalizeRGBA_mode img0⟩
    · obtain rfl := List.mem_singleton.mp h
      simp at hi
    · obtain rfl := List.mem_singleton.mp h
      simp at hi

/-- Witness for C8 as amended: an RGBA source is used unchanged, a gray+alpha
"LA" source is converted because its mode is not "RGBA", and the first
catalog write of an "RGB" source is a 16×16 resize of the converted image. -/
theorem alpha_normalization_witness :
    normalizeRGBA (Image.src ⟨"RGBA", 64, 64, 0⟩)
      = Image.src ⟨"RGBA", 64, 64, 0⟩ ∧
    normalizeRGBA (Image.src ⟨"LA", 64, 64, 0⟩)
      = (Image.src ⟨"LA", 64, 64, 0⟩).convert "RGBA" ∧
    ((∃ s : Nat,
      (normalizeRGBA (Image.src ⟨"RGB", 64, 64, 0⟩)).resize 16 16 .lanczos
        = (normalizeRGBA (Image.src ⟨"RGB", 64, 64, 0⟩)).resize s s
            .lanczos) ∧
      ((normalizeRGBA (Image.src ⟨"RGB", 64, 64, 0⟩)).resize 16 16
          .lanczos).mode = "RGBA") := by
  refine ⟨?_, ?_, ?_⟩
  · exact (alpha_normalization (Image.src ⟨"RGBA", 64, 64, 0⟩)
      OUTPUT_DIR).2.1 rfl
  · exact (alpha_normalization (Image.src ⟨"LA", 64, 64, 0⟩)
      OUTPUT_DIR).2.2.1 (by decide)
  · exact (alpha_normalization (Image.src ⟨"RGB", 64, 64, 0⟩)
      OUTPUT_DIR).2.2.2.1
      (joinPath OUTPUT_DIR "favicon-16x16.png",
        FileContent.png ((normalizeRGBA (Image.src ⟨"RGB", 64, 64, 0⟩)).resize
          16 16 .lanczos))
      (mem_generate_of_mem_SIZES (Image.src ⟨"RGB", 64, 64, 0⟩) OUTPUT_DIR
        (e := ("favicon-16x16.png", 16)) (by decide))
      _ rfl

/-- Counterexample for C8 as stated: a gray+alpha source (mode "LA") already
carries an alpha channel, yet it is not used without conversion — the run
converts it to RGBA because its mode differs from "RGBA", so "converted only
if alpha is absent" is false of the program. -/
theorem alpha_normalization_counterexample :
    modeHasAlpha (Image.src ⟨"LA", 64, 64, 0⟩).mode = true ∧
    normalizeRGBA (Image.src ⟨"LA", 64, 64, 0⟩)
      = (Image.src ⟨"LA", 64, 64, 0⟩).convert "RGBA" ∧
    normalizeRGBA (Image.src ⟨"LA", 64, 64, 0⟩)
      ≠ Image.src ⟨"LA", 64, 64, 0⟩ := by
  refine ⟨rfl, by decide, by decide⟩

/-- C9: the HTML snippet references `/icons/ios-icon-152x152.png` as a 152×152
apple-touch-icon, yet no write of the run produces a file at that path; every
other href in the snippet maps to a path that some catalog entry or emitter
writes. -/
theorem snippet_reference_gap (img0 : Image) :
    "/icons/ios-icon-152x152.png" ∈ snippetHrefs ∧
    hrefToFsPath "/icons/ios-icon-152x152.png"
      ∉ (generate_logo_sizes img0 OUTPUT_DIR).map Prod.fst ∧
    (∀ h ∈ snippetHrefs, h ≠ "/icons/ios-icon-152x152.png" →
      hrefToFsPath h ∈ (generate_logo_sizes img0 OUTPUT_DIR).map Prod.fst) := by
  simp only [generate_paths]
  refine ⟨by decide, by decide, by decide⟩

/-- Witness for C9: the 16-pixel favicon href resolves to a written path. -/
theorem snippet_reference_gap_witness :
    hrefToFsPath "/icons/favicon-16x16.png"
      ∈ (generate_logo_sizes (Image.src ⟨"RGBA", 256, 256, 0⟩)
          OUTPUT_DIR).map Prod.fst :=
  (snippet_reference_gap (Image.src ⟨"RGBA", 256, 256, 0⟩)).2.2
    "/icons/favicon-16x16.png" (by decide) (by decide)
